import Mathlib

/-!
Shallow embedding of the PledgeVote server core: the shared schema rows
(src/shared/schema.ts), the storage layer (DatabaseStorage in
src/unnamed/part_002) and the Express route handlers plus the WebSocket
fan-out (src/server/routes.ts).  The relational store is modelled as lists
of rows; generated ids and timestamps are threaded as explicit parameters.
Timestamps are Nat, uuid/varchar ids are String, jsonb payloads are kept
as opaque String values where no claim inspects them.  Enum columns that
carry a database default are modelled as the enum itself, with an absent
insert value standing for the column default; the nullable
attendance response column is modelled as Option because the source
explicitly handles the null case.
-/

/-- vote_type enum of src/shared/schema.ts. -/
inductive VoteType
  | yes_no
  | multiple_choice
  | ranked_choice
deriving DecidableEq, Repr

/-- vote_status enum of src/shared/schema.ts. -/
inductive VoteStatus
  | draft
  | active
  | closed
deriving DecidableEq, Repr

/-- attendance_response enum of src/shared/schema.ts. -/
inductive AttendanceResponse
  | present
  | excused
  | absent
deriving DecidableEq, Repr

/-- A row of the votes table (src/shared/schema.ts lines 52-70). -/
structure VoteRow where
  id : String
  title : String
  description : Option String
  type : VoteType
  status : VoteStatus
  options : Option (List String)
  startDate : Nat
  endDate : Nat
  createdBy : String
  eligibleVoters : Option String
  requiresQuorum : Bool
  quorumThreshold : Option Int
  allowRealTimeResults : Bool
  sendNotifications : Bool
  chapterId : Option String
  createdAt : Nat
  updatedAt : Nat
deriving DecidableEq, Repr

/-- A row of the user_votes table (src/shared/schema.ts lines 72-78);
the jsonb choices payload is kept opaque. -/
structure UserVote where
  id : String
  voteId : String
  userId : String
  choices : String
  submittedAt : Nat
deriving DecidableEq, Repr

/-- A row of the attendance_records table (src/shared/schema.ts lines
92-101).  The response column is nullable with default present; the
unique index attendance_session_user_idx keys it by (sessionId, userId). -/
structure AttendanceRecordRow where
  id : String
  sessionId : String
  userId : String
  response : Option AttendanceResponse
  note : Option String
  recordedAt : Nat
deriving DecidableEq, Repr

/-- The persistent store, restricted to the tables the claims touch. -/
structure Storage where
  votes : List VoteRow
  userVotes : List UserVote
  attendanceRecords : List AttendanceRecordRow
deriving DecidableEq, Repr

/-- The empty store. -/
def Storage.empty : Storage := ⟨[], [], []⟩

/-- Insert payload accepted by DatabaseStorage.createVote: the columns of
insertVoteSchema (createInsertSchema(votes) minus id/createdAt/updatedAt).
Optional fields model columns the caller may omit, in which case the
database column default applies. -/
structure InsertVote where
  title : String
  description : Option String
  type : VoteType
  status : Option VoteStatus
  options : Option (List String)
  startDate : Nat
  endDate : Nat
  createdBy : String
  eligibleVoters : Option String
  requiresQuorum : Option Bool
  quorumThreshold : Option Int
  allowRealTimeResults : Option Bool
  sendNotifications : Option Bool
  chapterId : Option String
deriving DecidableEq, Repr

/-- DatabaseStorage.createVote: db.insert(votes).values(vote).returning().
Column defaults of the schema are applied for omitted values: status
defaults to draft, requiresQuorum to false, allowRealTimeResults and
sendNotifications to true. -/
def createVote (store : Storage) (vote : InsertVote) (freshId : String) (now : Nat) :
    VoteRow × Storage :=
  let newVote : VoteRow :=
    { id := freshId
      title := vote.title
      description := vote.description
      type := vote.type
      status := vote.status.getD VoteStatus.draft
      options := vote.options
      startDate := vote.startDate
      endDate := vote.endDate
      createdBy := vote.createdBy
      eligibleVoters := vote.eligibleVoters
      requiresQuorum := vote.requiresQuorum.getD false
      quorumThreshold := vote.quorumThreshold
      allowRealTimeResults := vote.allowRealTimeResults.getD true
      sendNotifications := vote.sendNotifications.getD true
      chapterId := vote.chapterId
      createdAt := now
      updatedAt := now }
  (newVote, { store with votes := store.votes ++ [newVote] })

/-- DatabaseStorage.updateVoteStatus: db.update(votes).set(status,
updatedAt).where(eq(votes.id, id)).returning() and destructuring of the
first returned row.  An id with no matching row updates nothing and
yields none. -/
def updateVoteStatus (store : Storage) (id : String) (status : VoteStatus) (now : Nat) :
    Option VoteRow × Storage :=
  let newVotes := store.votes.map (fun r =>
    if r.id == id then { r with status := status, updatedAt := now } else r)
  ((newVotes.filter (fun r => r.id == id)).head?, { store with votes := newVotes })

/-- Insert payload accepted by DatabaseStorage.submitVote
(insertUserVoteSchema: user_votes minus id/submittedAt). -/
structure InsertUserVote where
  voteId : String
  userId : String
  choices : String
deriving DecidableEq, Repr

/-- DatabaseStorage.submitVote: db.insert(userVotes).values(userVote)
.returning().  The user_votes table carries no unique constraint, so the
insert always succeeds. -/
def submitVote (store : Storage) (userVote : InsertUserVote) (freshId : String) (now : Nat) :
    UserVote × Storage :=
  let newUserVote : UserVote :=
    { id := freshId
      voteId := userVote.voteId
      userId := userVote.userId
      choices := userVote.choices
      submittedAt := now }
  (newUserVote, { store with userVotes := store.userVotes ++ [newUserVote] })

/-- DatabaseStorage.getUserVote: select from user_votes where voteId and
userId match, destructuring the first row. -/
def getUserVote (store : Storage) (voteId userId : String) : Option UserVote :=
  (store.userVotes.filter (fun uv => uv.voteId == voteId && uv.userId == userId)).head?

/-- Number of user_votes rows stored for a (voteId, userId) pair. -/
def ballotCount (store : Storage) (voteId userId : String) : Nat :=
  (store.userVotes.filter (fun uv => uv.voteId == voteId && uv.userId == userId)).length

/-- Insert payload accepted by DatabaseStorage.markAttendance
(insertAttendanceRecordSchema: attendance_records minus id/recordedAt).
The nullable response column is kept as Option. -/
structure InsertAttendanceRecord where
  sessionId : String
  userId : String
  response : Option AttendanceResponse
  note : Option String
deriving DecidableEq, Repr

/-- DatabaseStorage.getAttendanceRecord: select from attendance_records
where sessionId and userId match, destructuring the first row. -/
def getAttendanceRecord (store : Storage) (sessionId userId : String) :
    Option AttendanceRecordRow :=
  (store.attendanceRecords.filter (fun r =>
    r.sessionId == sessionId && r.userId == userId)).head?

/-- Number of attendance_records rows stored for a (sessionId, userId)
pair.  The unique index attendance_session_user_idx keeps this at most 1
in every database-reachable state. -/
def attendanceCount (store : Storage) (sessionId userId : String) : Nat :=
  (store.attendanceRecords.filter (fun r =>
    r.sessionId == sessionId && r.userId == userId)).length

/-- DatabaseStorage.markAttendance: db.insert(attendanceRecords)
.values(record).onConflictDoUpdate on (sessionId, userId) setting
response, note and recordedAt, then returning().  Modelled as: when a row
with the key exists, every row with the key is rewritten in place (the
unique index guarantees there is exactly one) and the rewritten first
match is returned; otherwise a fresh row is appended and returned. -/
def markAttendance (store : Storage) (record : InsertAttendanceRecord)
    (freshId : String) (now : Nat) : Option AttendanceRecordRow × Storage :=
  match (store.attendanceRecords.filter (fun r =>
      r.sessionId == record.sessionId && r.userId == record.userId)).head? with
  | some existing =>
      let updated := { existing with
        response := record.response, note := record.note, recordedAt := now }
      let newRecords := store.attendanceRecords.map (fun r =>
        if r.sessionId == record.sessionId && r.userId == record.userId then
          { r with response := record.response, note := record.note, recordedAt := now }
        else r)
      (some updated, { store with attendanceRecords := newRecords })
  | none =>
      let newRecord : AttendanceRecordRow :=
        { id := freshId
          sessionId := record.sessionId
          userId := record.userId
          response := record.response
          note := record.note
          recordedAt := now }
      (some newRecord, { store with attendanceRecords := store.attendanceRecords ++ [newRecord] })

/-- The counts accumulator built by DatabaseStorage.getAttendanceSummary:
the reduce starts from the literal with keys total, present, excused and
absent all 0, so every summary carries exactly these four keys. -/
structure Counts where
  total : Nat
  present : Nat
  excused : Nat
  absent : Nat
deriving DecidableEq, Repr

/-- One step of the reduce inside getAttendanceSummary: the record is
bucketed under record.response with null coalesced to present, and total
is always incremented. -/
def countsStep (acc : Counts) (record : AttendanceRecordRow) : Counts :=
  let status := record.response.getD AttendanceResponse.present
  let acc1 :=
    match status with
    | AttendanceResponse.present => { acc with present := acc.present + 1 }
    | AttendanceResponse.excused => { acc with excused := acc.excused + 1 }
    | AttendanceResponse.absent => { acc with absent := acc.absent + 1 }
  { acc1 with total := acc1.total + 1 }

/-- DatabaseStorage.getAttendanceSummary: selects the records of the
session (the user join only adds display fields and is dropped here) and
reduces them into the counts mapping. -/
def getAttendanceSummary (store : Storage) (sessionId : String) :
    Counts × List AttendanceRecordRow :=
  let records := store.attendanceRecords.filter (fun r => r.sessionId == sessionId)
  (records.foldl countsStep ⟨0, 0, 0, 0⟩, records)

/-- getAttendanceSummary as a read operation on the store: the source
method only issues a select, so the store comes back untouched. -/
def getAttendanceSummaryOp (store : Storage) (sessionId : String) :
    (Counts × List AttendanceRecordRow) × Storage :=
  (getAttendanceSummary store sessionId, store)

/-! ### WebSocket fan-out (src/server/routes.ts lines 184-209) -/

/-- WebSocket.OPEN ready-state constant of the ws library. -/
def WebSocket_OPEN : Nat := 1

/-- The JSON.stringify result of the broadcast is modelled as the tagged
pair itself: the event kind string and an opaque payload rendering. -/
structure Message where
  type : String
  data : String
deriving DecidableEq, Repr

/-- A connected WebSocket client: its ready state and the messages
delivered to it so far. -/
structure WClient where
  readyState : Nat
  inbox : List Message
deriving DecidableEq, Repr

/-- client.send(message): the message is appended to the client inbox. -/
def sendTo (client : WClient) (message : Message) : WClient :=
  { client with inbox := client.inbox ++ [message] }

/-- broadcastToClients of src/server/routes.ts: the tagged message is
sent to every client whose readyState is WebSocket.OPEN; every other
client is skipped.  The function is total: a slow or failing transport
never surfaces here (ws send errors are emitted asynchronously on the
socket, handled by the error listener that removes the client). -/
def broadcastToClients (clients : List WClient) (type : String) (data : String) :
    List WClient :=
  let message : Message := { type := type, data := data }
  clients.map (fun client =>
    if client.readyState == WebSocket_OPEN then sendTo client message else client)

/-! ### Route handlers (src/server/routes.ts) -/

/-- Error outcomes the embedded handlers distinguish.  The duplicate-vote
early return (HTTP 400, you have already voted) is the
DuplicateSubmissionError of the spec taxonomy; the client-side
too-few-options toast is its ValidationError. -/
inductive VoteError
  | DuplicateSubmissionError
  | ValidationError
deriving DecidableEq, Repr

/-- POST /api/votes (src/server/routes.ts lines 26-54): parses the body
into an InsertVote, stores it via createVote and broadcasts a
vote_created event.  Returns the new row, the new store, the updated
client registry and the list of emitted event tags. -/
def postVote (store : Storage) (clients : List WClient) (vote : InsertVote)
    (freshId : String) (now : Nat) :
    VoteRow × Storage × List WClient × List String :=
  let (newVote, store1) := createVote store vote freshId now
  (newVote, store1, broadcastToClients clients "vote_created" newVote.id, ["vote_created"])

/-- PATCH /api/votes/:id/status (src/server/routes.ts lines 79-92):
writes the supplied status via updateVoteStatus and broadcasts a
vote_status_changed event.  The handler has no not-found branch: an
unknown id still answers 200 with an empty body and still broadcasts. -/
def patchVoteStatus (store : Storage) (clients : List WClient) (id : String)
    (status : VoteStatus) (now : Nat) :
    Option VoteRow × Storage × List WClient × List String :=
  let (updatedVote, store1) := updateVoteStatus store id status now
  (updatedVote, store1, broadcastToClients clients "vote_status_changed" id,
    ["vote_status_changed"])

/-- POST /api/votes/:id/vote (src/server/routes.ts lines 95-126), the
castVote of the spec: if getUserVote finds an existing ballot the handler
returns 400 before touching the store or broadcasting; otherwise the
ballot is inserted via submitVote and a vote_submitted event carrying
voteId, userId and a timestamp is broadcast. -/
def castVote (store : Storage) (clients : List WClient) (voteId userId choices : String)
    (freshId : String) (now : Nat) :
    Except VoteError UserVote × Storage × List WClient × List String :=
  match getUserVote store voteId userId with
  | some _ => (Except.error VoteError.DuplicateSubmissionError, store, clients, [])
  | none =>
      let (userVote, store1) := submitVote store ⟨voteId, userId, choices⟩ freshId now
      (Except.ok userVote, store1,
        broadcastToClients clients "vote_submitted" (voteId ++ "," ++ userId),
        ["vote_submitted"])

/-! ### Client-side create-vote flow (src/client/src/pages/create-vote.tsx) -/

/-- The fields of the create-vote form (voteSchema of create-vote.tsx);
dates are modelled after parsing. -/
structure VoteFormData where
  title : String
  description : Option String
  type : VoteType
  startDate : Nat
  endDate : Nat
  allowRealTimeResults : Bool
  requiresQuorum : Bool
  sendNotifications : Bool
deriving DecidableEq, Repr

/-- The JS String.prototype.trim used by the source, embedded
structurally: whitespace is stripped from both ends.  Core String.trim is
extensionally the same but is defined by well-founded recursion, which
does not evaluate inside the kernel, so the structural form is used. -/
def jsTrim (s : String) : String :=
  String.mk (((s.data.dropWhile Char.isWhitespace).reverse.dropWhile
    Char.isWhitespace).reverse)

/-- The option filter of create-vote.tsx: options.filter(opt =>
opt.trim()) keeps exactly the entries that are non-blank after trimming,
but keeps them verbatim, untrimmed. -/
def keptOptions (options : List String) : List String :=
  options.filter (fun opt => jsTrim opt != "")

/-- onSubmit of create-vote.tsx chained with the server POST /api/votes
handler: when the type is not yes_no and fewer than 2 options survive the
blank filter, the submission stops with the validation toast and nothing
is sent; otherwise createVoteMutation builds the request with
status active and the filtered options (null options for yes_no) and the
server persists it via createVote. -/
def onSubmit (store : Storage) (data : VoteFormData) (options : List String)
    (userId : String) (freshId : String) (now : Nat) :
    Except VoteError VoteRow × Storage :=
  if data.type != VoteType.yes_no && (keptOptions options).length < 2 then
    (Except.error VoteError.ValidationError, store)
  else
    let voteData : InsertVote :=
      { title := data.title
        description := data.description
        type := data.type
        status := some VoteStatus.active
        options := if data.type != VoteType.yes_no then some (keptOptions options) else none
        startDate := data.startDate
        endDate := data.endDate
        createdBy := userId
        eligibleVoters := none
        requiresQuorum := some data.requiresQuorum
        quorumThreshold := none
        allowRealTimeResults := some data.allowRealTimeResults
        sendNotifications := some data.sendNotifications
        chapterId := none }
    let (newVote, store1) := createVote store voteData freshId now
    (Except.ok newVote, store1)

/-! ### Sequences of calls -/

/-- The arguments of one castVote call in a sequence. -/
structure CastCall where
  voteId : String
  userId : String
  choices : String
  freshId : String
  now : Nat
deriving DecidableEq, Repr

/-- The store reached after a sequence of castVote calls. -/
def runCasts (store : Storage) (calls : List CastCall) : Storage :=
  calls.foldl (fun st c => (castVote st [] c.voteId c.userId c.choices c.freshId c.now).2.1)
    store

/-- The arguments of one markAttendance call for a fixed
(sessionId, userId) pair. -/
structure MarkCall where
  response : Option AttendanceResponse
  note : Option String
  freshId : String
  now : Nat
deriving DecidableEq, Repr

/-- The store reached after a sequence of markAttendance calls for one
(sessionId, userId) pair. -/
def runMarks (store : Storage) (sessionId userId : String) (calls : List MarkCall) :
    Storage :=
  calls.foldl (fun st c =>
    (markAttendance st ⟨sessionId, userId, c.response, c.note⟩ c.freshId c.now).2) store

/-! ### Sample data for witnesses and counterexamples -/

/-- A stored ballot of voter u1 on poll p1. -/
def sampleBallot : UserVote :=
  { id := "b1", voteId := "p1", userId := "u1", choices := "yes", submittedAt := 0 }

/-- A store holding exactly that one ballot. -/
def sampleStore : Storage := { votes := [], userVotes := [sampleBallot], attendanceRecords := [] }

/-- A poll row in draft status. -/
def sampleVoteRow : VoteRow :=
  { id := "p1", title := "Approve Budget", description := none, type := VoteType.yes_no
    status := VoteStatus.draft, options := none, startDate := 0, endDate := 10
    createdBy := "u1", eligibleVoters := none, requiresQuorum := false
    quorumThreshold := none, allowRealTimeResults := true, sendNotifications := true
    chapterId := none, createdAt := 0, updatedAt := 0 }

/-- A store holding exactly that one poll. -/
def sampleVoteStore : Storage :=
  { votes := [sampleVoteRow], userVotes := [], attendanceRecords := [] }

/-- An insert payload that supplies status draft explicitly. -/
def sampleDraftInsert : InsertVote :=
  { title := "Approve Budget", description := none, type := VoteType.yes_no
    status := some VoteStatus.draft, options := none, startDate := 0, endDate := 10
    createdBy := "u1", eligibleVoters := none, requiresQuorum := none
    quorumThreshold := none, allowRealTimeResults := none, sendNotifications := none
    chapterId := none }

/-- A multiple-choice form submission. -/
def sampleFormData : VoteFormData :=
  { title := "Pick a color", description := none, type := VoteType.multiple_choice
    startDate := 0, endDate := 10, allowRealTimeResults := true
    requiresQuorum := false, sendNotifications := true }

/-- The row that a successful non yes_no onSubmit persists, spelled out
for reuse in statements and proofs. -/
def onSubmitRow (data : VoteFormData) (options : List String)
    (userId freshId : String) (now : Nat) : VoteRow :=
  { id := freshId, title := data.title, description := data.description
    type := data.type, status := VoteStatus.active
    options := some (keptOptions options), startDate := data.startDate
    endDate := data.endDate, createdBy := userId, eligibleVoters := none
    requiresQuorum := data.requiresQuorum, quorumThreshold := none
    allowRealTimeResults := data.allowRealTimeResults
    sendNotifications := data.sendNotifications, chapterId := none
    createdAt := now, updatedAt := now }

/-! ### Claim C1 -/

/-- castVote preserves the at-most-one-ballot bound for any pair. -/
theorem ballotCount_after_castVote (store : Storage) (cls : List WClient)
    (vid uid ch fid : String) (n : Nat) (p v : String)
    (h : ballotCount store p v ≤ 1) :
    ballotCount (castVote store cls vid uid ch fid n).2.1 p v ≤ 1 := by
  cases hgv : getUserVote store vid uid with
  | some uv => simpa [castVote, hgv] using h
  | none =>
      have hnil : store.userVotes.filter
          (fun uv => uv.voteId == vid && uv.userId == uid) = [] := by
        simpa [getUserVote, List.head?_eq_none_iff] using hgv
      by_cases hmatch : (vid == p && uid == v) = true
      · have hsplit := (Bool.and_eq_true _ _).mp hmatch
        have hvp1 : vid = p := by simpa using hsplit.1
        have hvp2 : uid = v := by simpa using hsplit.2
        subst hvp1; subst hvp2
        simp [castVote, hgv, submitVote, ballotCount, List.filter_append, hnil]
      · have hfalse : (vid == p && uid == v) = false := by
          simpa using hmatch
        simp only [castVote, hgv, submitVote, ballotCount, List.filter_append]
        simpa [ballotCount, List.filter, hfalse] using h

theorem ballotCount_runCasts (p v : String) (calls : List CastCall) :
    ∀ store : Storage, ballotCount store p v ≤ 1 →
      ballotCount (runCasts store calls) p v ≤ 1 := by
  induction calls with
  | nil => intro store h; simpa [runCasts] using h
  | cons c rest ih =>
      intro store h
      have h1 := ballotCount_after_castVote store [] c.voteId c.userId c.choices c.freshId
        c.now p v h
      simpa [runCasts] using ih _ h1

/-- C1: a castVote call for a pair that already holds a ballot fails with
DuplicateSubmissionError and leaves store, registry and event list
untouched; and from any store respecting the at-most-one-ballot bound for
a pair, no sequence of castVote calls ever pushes the count of that pair
above 1. -/
theorem castVote_duplicate_rejected_and_at_most_one (store : Storage) (p v : String) :
    (∀ ch fid n cls, getUserVote store p v ≠ none →
        castVote store cls p v ch fid n =
          (Except.error VoteError.DuplicateSubmissionError, store, cls, [])) ∧
    (ballotCount store p v ≤ 1 →
      ∀ calls : List CastCall, ballotCount (runCasts store calls) p v ≤ 1) := by
  constructor
  · intro ch fid n cls h
    cases hgv : getUserVote store p v with
    | none => exact absurd hgv h
    | some uv => simp [castVote, hgv]
  · intro h calls
    exact ballotCount_runCasts p v calls store h

/-- Witness for C1 at the one-ballot sample store. -/
theorem castVote_duplicate_rejected_and_at_most_one_witness :
    castVote sampleStore [] "p1" "u1" "no" "b2" 5 =
      (Except.error VoteError.DuplicateSubmissionError, sampleStore, [], []) ∧
    ballotCount (runCasts sampleStore [⟨"p1", "u1", "yes", "b3", 6⟩]) "p1" "u1" ≤ 1 :=
  ⟨(castVote_duplicate_rejected_and_at_most_one sampleStore "p1" "u1").1 "no" "b2" 5 []
      (by decide),
    (castVote_duplicate_rejected_and_at_most_one sampleStore "p1" "u1").2 (by decide)
      [⟨"p1", "u1", "yes", "b3", 6⟩]⟩

/-! ### Claim C2 -/

/-- Filtering commutes with a map that does not change the filter
predicate. -/
theorem filter_map_of_pred_inv {α : Type} (f : α → α) (p : α → Bool)
    (hp : ∀ a, p (f a) = p a) :
    ∀ l : List α, (l.map f).filter p = (l.filter p).map f := by
  intro l
  induction l with
  | nil => simp
  | cons a l ih =>
      by_cases h : p a = true
      · simp [List.filter_cons, hp, h, ih]
      · simp [List.filter_cons, hp, h, ih]

/-- One markAttendance call on a store respecting the unique-index bound
leaves exactly one record for the pair, holding the call arguments. -/
theorem markAttendance_step (store : Storage) (sid uid : String)
    (resp : Option AttendanceResponse) (note : Option String) (fid : String) (n : Nat)
    (h : attendanceCount store sid uid ≤ 1) :
    attendanceCount (markAttendance store ⟨sid, uid, resp, note⟩ fid n).2 sid uid = 1 ∧
    ∃ r, getAttendanceRecord (markAttendance store ⟨sid, uid, resp, note⟩ fid n).2 sid uid
        = some r ∧ r.response = resp ∧ r.note = note ∧ r.recordedAt = n := by
  cases hhead : (store.attendanceRecords.filter (fun r =>
      r.sessionId == sid && r.userId == uid)).head? with
  | none =>
      have hnil : store.attendanceRecords.filter (fun r =>
          r.sessionId == sid && r.userId == uid) = [] := by
        simpa [List.head?_eq_none_iff] using hhead
      constructor
      · simp [markAttendance, hhead, attendanceCount, List.filter_append, hnil]
      · refine ⟨⟨fid, sid, uid, resp, note, n⟩, ?_, rfl, rfl, rfl⟩
        simp [markAttendance, hhead, getAttendanceRecord, List.filter_append, hnil]
  | some existing =>
      have hpred : ∀ r : AttendanceRecordRow,
          ((if r.sessionId == sid && r.userId == uid then
              { r with response := resp, note := note, recordedAt := n }
            else r).sessionId == sid &&
           (if r.sessionId == sid && r.userId == uid then
              { r with response := resp, note := note, recordedAt := n }
            else r).userId == uid)
          = (r.sessionId == sid && r.userId == uid) := by
        intro r
        by_cases hr : (r.sessionId == sid && r.userId == uid) = true <;> simp [hr]
      have hcomm := filter_map_of_pred_inv
        (fun r : AttendanceRecordRow =>
          if r.sessionId == sid && r.userId == uid then
            { r with response := resp, note := note, recordedAt := n }
          else r)
        (fun r => r.sessionId == sid && r.userId == uid) hpred store.attendanceRecords
      have hone : attendanceCount store sid uid = 1 := by
        have hpos : 0 < attendanceCount store sid uid := by
          by_contra hc
          have : attendanceCount store sid uid = 0 := by omega
          rw [attendanceCount, List.length_eq_zero] at this
          simp [this] at hhead
        omega
      have hmemh : existing ∈ (store.attendanceRecords.filter (fun r =>
          r.sessionId == sid && r.userId == uid)).head? := by
        simp [hhead]
      have hexmem := List.mem_of_mem_head? hmemh
      have hexpred : (existing.sessionId == sid && existing.userId == uid) = true :=
        (List.mem_filter.mp hexmem).2
      constructor
      · simp only [markAttendance, hhead, attendanceCount]
        rw [hcomm]
        simpa [attendanceCount] using hone
      · refine ⟨{ existing with response := resp, note := note, recordedAt := n },
          ?_, rfl, rfl, rfl⟩
        simp only [markAttendance, hhead, getAttendanceRecord]
        rw [hcomm, List.head?_map, hhead]
        simp only [Option.map_some']
        rw [if_pos hexpred]

/-- Sequences of markAttendance calls preserve the unique-index bound for
their pair. -/
theorem attendanceCount_runMarks (sid uid : String) (calls : List MarkCall) :
    ∀ store : Storage, attendanceCount store sid uid ≤ 1 →
      attendanceCount (runMarks store sid uid calls) sid uid ≤ 1 := by
  induction calls with
  | nil => intro store h; simpa [runMarks] using h
  | cons c rest ih =>
      intro store h
      have h1 := (markAttendance_step store sid uid c.response c.note c.freshId c.now h).1
      have h2 : attendanceCount
          (markAttendance store ⟨sid, uid, c.response, c.note⟩ c.freshId c.now).2 sid uid
          ≤ 1 := by omega
      simpa [runMarks] using ih _ h2

/-- C2: starting from a store respecting the unique index on
(sessionId, userId), any nonempty sequence of markAttendance calls for a
pair leaves exactly one attendance record for that pair, and its response,
note and recordedAt fields are those of the last call; no duplicate error
exists in the operation (its result type has no error alternative, the
upsert always returns the resulting record). -/
theorem markAttendance_last_write_wins (store : Storage) (sid uid : String)
    (calls : List MarkCall) (c : MarkCall)
    (h : attendanceCount store sid uid ≤ 1) :
    attendanceCount (runMarks store sid uid (calls ++ [c])) sid uid = 1 ∧
    ∃ r, getAttendanceRecord (runMarks store sid uid (calls ++ [c])) sid uid = some r ∧
      r.response = c.response ∧ r.note = c.note ∧ r.recordedAt = c.now := by
  have hmid := attendanceCount_runMarks sid uid calls store h
  have hstep := markAttendance_step (runMarks store sid uid calls) sid uid c.response
    c.note c.freshId c.now hmid
  have hfold : runMarks store sid uid (calls ++ [c]) =
      (markAttendance (runMarks store sid uid calls) ⟨sid, uid, c.response, c.note⟩
        c.freshId c.now).2 := by
    simp [runMarks, List.foldl_append]
  rw [hfold]
  exact hstep

/-- Witness for C2: mark absent with a note, then mark present without
one; a single record remains, holding the second call. -/
theorem markAttendance_last_write_wins_witness :
    attendanceCount (runMarks Storage.empty "s1" "u1"
      ([⟨some AttendanceResponse.absent, some "sick", "a1", 1⟩] ++
        [⟨some AttendanceResponse.present, none, "a2", 2⟩])) "s1" "u1" = 1 ∧
    ∃ r, getAttendanceRecord (runMarks Storage.empty "s1" "u1"
        ([⟨some AttendanceResponse.absent, some "sick", "a1", 1⟩] ++
          [⟨some AttendanceResponse.present, none, "a2", 2⟩])) "s1" "u1" = some r ∧
      r.response = some AttendanceResponse.present ∧ r.note = none ∧ r.recordedAt = 2 :=
  markAttendance_last_write_wins Storage.empty "s1" "u1"
    [⟨some AttendanceResponse.absent, some "sick", "a1", 1⟩]
    ⟨some AttendanceResponse.present, none, "a2", 2⟩ (by decide)

/-! ### Claim C3 -/

/-- Counterexample to C3: a createPoll input carrying status draft is
persisted with status draft, not active; the server passes the supplied
status through instead of forcing active. -/
theorem createVote_status_counterexample :
    (createVote Storage.empty sampleDraftInsert "p1" 0).1.status = VoteStatus.draft ∧
    VoteStatus.draft ≠ VoteStatus.active :=
  ⟨rfl, by decide⟩

/-- C3 amended: the status persisted by createVote is exactly the
caller-supplied status, defaulting to the draft column default when the
caller omits it; the server never overrides it (the observed client
always supplies active, which is why created polls are seen active). -/
theorem createVote_status_passthrough (store : Storage) (vote : InsertVote)
    (freshId : String) (now : Nat) :
    (createVote store vote freshId now).1.status = vote.status.getD VoteStatus.draft ∧
    (createVote store vote freshId now).2.votes
      = store.votes ++ [(createVote store vote freshId now).1] :=
  ⟨rfl, rfl⟩

/-! ### Claim C4 -/

/-- Counterexample to C4: with an option list whose first entry carries
surrounding spaces, the submission succeeds but stores the surviving
entries verbatim, spaces included, not their trimmed forms. -/
theorem onSubmit_options_counterexample :
    ((onSubmit Storage.empty sampleFormData [" Red ", "Blue"] "u1" "p1" 0).1.map
        (fun r => r.options)) = Except.ok (some [" Red ", "Blue"]) ∧
    (some [" Red ", "Blue"] : Option (List String)) ≠ some ["Red", "Blue"] ∧
    jsTrim " Red " = "Red" := by
  refine ⟨rfl, by decide, by decide⟩

/-- C4 amended: for a non yes_no poll the submission fails with the
validation error when fewer than 2 entries survive the blank filter and
creates no row; otherwise it succeeds, appends exactly one row whose
options are exactly the entries that are non-blank after trimming, kept
verbatim (untrimmed), with status active. -/
theorem onSubmit_option_validation (store : Storage) (data : VoteFormData)
    (options : List String) (userId freshId : String) (now : Nat)
    (hty : data.type ≠ VoteType.yes_no) :
    ((keptOptions options).length < 2 →
      onSubmit store data options userId freshId now
        = (Except.error VoteError.ValidationError, store)) ∧
    (2 ≤ (keptOptions options).length →
      ∃ row, onSubmit store data options userId freshId now
          = (Except.ok row, { store with votes := store.votes ++ [row] }) ∧
        row.options = some (keptOptions options) ∧ row.status = VoteStatus.active) := by
  have hb : (data.type != VoteType.yes_no) = true := by
    simpa [bne_iff_ne] using hty
  constructor
  · intro h2
    have hcond : (data.type != VoteType.yes_no
        && decide ((keptOptions options).length < 2)) = true := by
      simp [hb, h2]
    simp [onSubmit, hcond]
  · intro h2
    have hlt : ¬ ((keptOptions options).length < 2) := by omega
    have hcond : (data.type != VoteType.yes_no
        && decide ((keptOptions options).length < 2)) = false := by
      simp [hlt]
    refine ⟨onSubmitRow data options userId freshId now, ?_, rfl, rfl⟩
    simp [onSubmit, hcond, createVote, hb, onSubmitRow, hlt, h2]

/-- Witness for C4 amended: one surviving option fails validation and
leaves the store empty; two survive and are stored verbatim. -/
theorem onSubmit_option_validation_witness :
    onSubmit Storage.empty sampleFormData ["OnlyOne"] "u1" "p1" 0
      = (Except.error VoteError.ValidationError, Storage.empty) ∧
    ∃ row, onSubmit Storage.empty sampleFormData [" Red ", "Blue"] "u1" "p2" 0
        = (Except.ok row, { Storage.empty with votes := Storage.empty.votes ++ [row] }) ∧
      row.options = some (keptOptions [" Red ", "Blue"]) ∧
      row.status = VoteStatus.active :=
  ⟨(onSubmit_option_validation Storage.empty sampleFormData ["OnlyOne"] "u1" "p1" 0
      (by decide)).1 (by decide),
    (onSubmit_option_validation Storage.empty sampleFormData [" Red ", "Blue"] "u1" "p2" 0
      (by decide)).2 (by decide)⟩

/-! ### Claim C5 -/

/-- Counterexample to C5: the tags the code broadcasts for poll creation
and poll status change are vote_created and vote_status_changed, not the
poll_created and poll_status_changed the claim names. -/
theorem event_tags_counterexample :
    (postVote Storage.empty [] sampleDraftInsert "p1" 0).2.2.2 = ["vote_created"] ∧
    ("vote_created" : String) ≠ "poll_created" ∧
    (patchVoteStatus sampleVoteStore [] "p1" VoteStatus.active 0).2.2.2
      = ["vote_status_changed"] ∧
    ("vote_status_changed" : String) ≠ "poll_status_changed" :=
  ⟨rfl, by decide, rfl, by decide⟩

/-- C5 amended: every event the fan-out emits carries one of exactly the
tags vote_created, vote_status_changed and vote_submitted, bit-exact:
poll creation emits vote_created, a status change emits
vote_status_changed, and a ballot submission emits vote_submitted (and a
rejected duplicate emits nothing). -/
theorem event_tags_exact :
    (∀ store clients vote freshId now,
      (postVote store clients vote freshId now).2.2.2 = ["vote_created"]) ∧
    (∀ store clients id status now,
      (patchVoteStatus store clients id status now).2.2.2 = ["vote_status_changed"]) ∧
    (∀ store clients voteId userId choices freshId now,
      (castVote store clients voteId userId choices freshId now).2.2.2
        = if (getUserVote store voteId userId).isSome then [] else ["vote_submitted"]) := by
  refine ⟨fun _ _ _ _ _ => rfl, fun _ _ _ _ _ => rfl,
    fun store clients voteId userId choices freshId now => ?_⟩
  cases h : getUserVote store voteId userId <;> simp [castVote, h]

/-! ### Claim C6 -/

/-- Counterexample to C6: patching the status of an id absent from the
store does not fail with any NotFoundError; the handler completes,
returns no row, leaves the store unchanged and even still broadcasts. -/
theorem patchVoteStatus_missing_counterexample :
    (patchVoteStatus Storage.empty [] "missing" VoteStatus.closed 0).1 = none ∧
    (patchVoteStatus Storage.empty [] "missing" VoteStatus.closed 0).2.1 = Storage.empty ∧
    (patchVoteStatus Storage.empty [] "missing" VoteStatus.closed 0).2.2.2
      = ["vote_status_changed"] :=
  ⟨rfl, rfl, rfl⟩

/-- A map whose function fixes every element of the list is the
identity on it. -/
theorem map_id_of_fix {α : Type} (f : α → α) :
    ∀ l : List α, (∀ a ∈ l, f a = a) → l.map f = l := by
  intro l
  induction l with
  | nil => intro _; rfl
  | cons a rest ih =>
      intro h
      have ha : f a = a := h a (by simp)
      have hrest := ih (fun b hb => h b (by simp [hb]))
      simp [ha, hrest]

/-- C6 amended: updateVoteStatus writes the supplied status
unconditionally into every row carrying the id, with no check of the
current status; when some row carries the id the updated row is returned
with the new status; when no row carries the id nothing is updated,
no row is returned, and no error of any kind is raised (the handler then
answers 200 with an empty body, not a NotFoundError). -/
theorem updateVoteStatus_unconditional (store : Storage) (id : String)
    (status : VoteStatus) (now : Nat) :
    (∀ r ∈ (updateVoteStatus store id status now).2.votes, r.id = id → r.status = status) ∧
    ((∃ r ∈ store.votes, r.id = id) →
      ∃ r, (updateVoteStatus store id status now).1 = some r ∧ r.status = status) ∧
    ((∀ r ∈ store.votes, r.id ≠ id) →
      updateVoteStatus store id status now = (none, store)) := by
  have hpred : ∀ r : VoteRow,
      ((if r.id == id then { r with status := status, updatedAt := now } else r).id == id)
        = (r.id == id) := by
    intro r
    by_cases hr : (r.id == id) = true <;> simp [hr]
  have hcomm := filter_map_of_pred_inv
    (fun r : VoteRow => if r.id == id then { r with status := status, updatedAt := now }
      else r)
    (fun r => r.id == id) hpred store.votes
  refine ⟨?_, ?_, ?_⟩
  · intro r hr hid
    simp only [updateVoteStatus, List.mem_map] at hr
    obtain ⟨r0, _, hr0⟩ := hr
    by_cases h0 : (r0.id == id) = true
    · rw [← hr0, if_pos h0]
    · exfalso
      rw [← hr0, if_neg h0] at hid
      simp [hid] at h0
  · intro hex
    obtain ⟨r0, hr0mem, hr0id⟩ := hex
    cases hh : (store.votes.filter (fun r => r.id == id)).head? with
    | none =>
        exfalso
        have hnil := List.head?_eq_none_iff.mp hh
        have : r0 ∈ store.votes.filter (fun r => r.id == id) :=
          List.mem_filter.mpr ⟨hr0mem, by simp [hr0id]⟩
        simp [hnil] at this
    | some rh =>
        have hmemh : rh ∈ (store.votes.filter (fun r => r.id == id)).head? := by
          simp [hh]
        have hpredh : (rh.id == id) = true :=
          (List.mem_filter.mp (List.mem_of_mem_head? hmemh)).2
        refine ⟨{ rh with status := status, updatedAt := now }, ?_, rfl⟩
        simp only [updateVoteStatus]
        rw [hcomm, List.head?_map, hh, Option.map_some']
        rw [if_pos hpredh]
  · intro hnone
    have hmap : store.votes.map (fun r =>
        if r.id == id then { r with status := status, updatedAt := now } else r)
        = store.votes := by
      apply map_id_of_fix
      intro r hr
      have : (r.id == id) = false := by
        simpa using hnone r hr
      simp [this]
    have hfil : store.votes.filter (fun r => r.id == id) = [] := by
      rw [List.filter_eq_nil_iff]
      intro r hr
      simpa using hnone r hr
    simp only [updateVoteStatus, hmap, hfil]
    rfl

/-- Witness for C6 amended at a one-poll store and at the empty store. -/
theorem updateVoteStatus_unconditional_witness :
    (∀ r ∈ (updateVoteStatus sampleVoteStore "p1" VoteStatus.closed 5).2.votes,
        r.id = "p1" → r.status = VoteStatus.closed) ∧
    (∃ r, (updateVoteStatus sampleVoteStore "p1" VoteStatus.closed 5).1 = some r ∧
        r.status = VoteStatus.closed) ∧
    updateVoteStatus Storage.empty "p1" VoteStatus.closed 5 = (none, Storage.empty) :=
  ⟨(updateVoteStatus_unconditional sampleVoteStore "p1" VoteStatus.closed 5).1,
    (updateVoteStatus_unconditional sampleVoteStore "p1" VoteStatus.closed 5).2.1
      ⟨sampleVoteRow, by decide⟩,
    (updateVoteStatus_unconditional Storage.empty "p1" VoteStatus.closed 5).2.2
      (by intro r hr; simp [Storage.empty] at hr)⟩

/-! ### Claim C7 -/

/-- C7: the broadcast delivers the tagged message to exactly the clients
whose connection is open, leaves every other client untouched and skips
it without error, and the outcome and store of the command that triggered
the broadcast never depend on the observer registry. -/
theorem broadcastToClients_fanout :
    (∀ clients (type data : String), List.Forall₂ (fun c c2 =>
        (c.readyState = WebSocket_OPEN → c2 = sendTo c { type := type, data := data }) ∧
        (c.readyState ≠ WebSocket_OPEN → c2 = c))
      clients (broadcastToClients clients type data)) ∧
    (∀ store cls cls2 voteId userId choices freshId now,
      (castVote store cls voteId userId choices freshId now).1
        = (castVote store cls2 voteId userId choices freshId now).1 ∧
      (castVote store cls voteId userId choices freshId now).2.1
        = (castVote store cls2 voteId userId choices freshId now).2.1) := by
  constructor
  · intro clients ty da
    induction clients with
    | nil => simp [broadcastToClients]
    | cons c rest ih =>
        simp only [broadcastToClients, List.map_cons] at *
        refine List.Forall₂.cons ?_ ih
        constructor
        · intro hr
          simp [hr]
        · intro hr
          have hfalse : (c.readyState == WebSocket_OPEN) = false := by
            simpa using hr
          simp [hfalse]
  · intro store cls cls2 voteId userId choices freshId now
    cases h : getUserVote store voteId userId <;> simp [castVote, h]

/-! ### Claim C8 -/

/-- C8: attendanceSummary is a pure, deterministic projection of the
current store: issuing it twice with no intervening write yields the same
counts both times, and the read leaves the store untouched. -/
theorem attendanceSummary_idempotent (store : Storage) (sessionId : String) :
    ((getAttendanceSummaryOp ((getAttendanceSummaryOp store sessionId).2) sessionId).1).1
      = ((getAttendanceSummaryOp store sessionId).1).1 ∧
    (getAttendanceSummaryOp store sessionId).2 = store :=
  ⟨rfl, rfl⟩

/-! ### Claim C9 -/

/-- C9: updateVoteStatus only touches the status and updatedAt columns of
the rows carrying the target id: user_votes and attendance_records are
untouched, every poll row with a different id is returned unchanged, and
a row with the id keeps every other column as it was. -/
theorem updateVoteStatus_frame (store : Storage) (id : String) (status : VoteStatus)
    (now : Nat) :
    (updateVoteStatus store id status now).2.userVotes = store.userVotes ∧
    (updateVoteStatus store id status now).2.attendanceRecords = store.attendanceRecords ∧
    List.Forall₂ (fun r r2 =>
        (r.id ≠ id → r2 = r) ∧
        (r.id = id → r2.id = r.id ∧ r2.title = r.title ∧ r2.description = r.description ∧
          r2.type = r.type ∧ r2.options = r.options ∧ r2.startDate = r.startDate ∧
          r2.endDate = r.endDate ∧ r2.createdBy = r.createdBy ∧
          r2.eligibleVoters = r.eligibleVoters ∧ r2.requiresQuorum = r.requiresQuorum ∧
          r2.quorumThreshold = r.quorumThreshold ∧
          r2.allowRealTimeResults = r.allowRealTimeResults ∧
          r2.sendNotifications = r.sendNotifications ∧ r2.chapterId = r.chapterId ∧
          r2.createdAt = r.createdAt ∧ r2.status = status ∧ r2.updatedAt = now))
      store.votes (updateVoteStatus store id status now).2.votes := by
  refine ⟨rfl, rfl, ?_⟩
  simp only [updateVoteStatus]
  induction store.votes with
  | nil => simp
  | cons r rest ih =>
      simp only [List.map_cons]
      refine List.Forall₂.cons ?_ ih
      by_cases hr : r.id = id
      · refine ⟨fun hcon => absurd hr hcon, fun _ => ?_⟩
        simp [hr]
      · refine ⟨fun _ => ?_, fun hcon => absurd hcon hr⟩
        simp [hr]

/-! ### Claim C10 -/

/-- The total of the summary fold counts every record once. -/
theorem foldl_countsStep_total (l : List AttendanceRecordRow) :
    ∀ acc : Counts, (l.foldl countsStep acc).total = acc.total + l.length := by
  induction l with
  | nil => intro acc; simp
  | cons r rest ih =>
      intro acc
      have hstep : (countsStep acc r).total = acc.total + 1 := by
        cases hr : r.response with
        | none => simp [countsStep, hr]
        | some resp => cases resp <;> simp [countsStep, hr]
      rw [List.foldl_cons, ih, hstep]
      simp
      omega

/-- The present bucket of the summary fold counts the records whose
response is present or null. -/
theorem foldl_countsStep_present (l : List AttendanceRecordRow) :
    ∀ acc : Counts, (l.foldl countsStep acc).present
      = acc.present + (l.filter (fun r =>
          r.response == some AttendanceResponse.present || r.response == none)).length := by
  induction l with
  | nil => intro acc; simp
  | cons r rest ih =>
      intro acc
      rw [List.foldl_cons, ih]
      cases hr : r.response with
      | none => simp [countsStep, hr, List.filter_cons]; omega
      | some resp =>
          cases resp <;> (simp [countsStep, hr, List.filter_cons]; try omega)

/-- The excused bucket of the summary fold counts the excused records. -/
theorem foldl_countsStep_excused (l : List AttendanceRecordRow) :
    ∀ acc : Counts, (l.foldl countsStep acc).excused
      = acc.excused + (l.filter (fun r =>
          r.response == some AttendanceResponse.excused)).length := by
  induction l with
  | nil => intro acc; simp
  | cons r rest ih =>
      intro acc
      rw [List.foldl_cons, ih]
      cases hr : r.response with
      | none => simp [countsStep, hr, List.filter_cons]
      | some resp =>
          cases resp <;> (simp [countsStep, hr, List.filter_cons]; try omega)

/-- The absent bucket of the summary fold counts the absent records. -/
theorem foldl_countsStep_absent (l : List AttendanceRecordRow) :
    ∀ acc : Counts, (l.foldl countsStep acc).absent
      = acc.absent + (l.filter (fun r =>
          r.response == some AttendanceResponse.absent)).length := by
  induction l with
  | nil => intro acc; simp
  | cons r rest ih =>
      intro acc
      rw [List.foldl_cons, ih]
      cases hr : r.response with
      | none => simp [countsStep, hr, List.filter_cons]
      | some resp =>
          cases resp <;> (simp [countsStep, hr, List.filter_cons]; try omega)

/-- Each record falls in exactly one of the three response buckets. -/
theorem length_split_responses (l : List AttendanceRecordRow) :
    l.length = (l.filter (fun r =>
        r.response == some AttendanceResponse.present || r.response == none)).length
      + (l.filter (fun r => r.response == some AttendanceResponse.excused)).length
      + (l.filter (fun r => r.response == some AttendanceResponse.absent)).length := by
  induction l with
  | nil => simp
  | cons r rest ih =>
      cases hr : r.response with
      | none => simp [List.filter_cons, hr]; omega
      | some resp => cases resp <;> simp [List.filter_cons, hr] <;> omega

/-- C10: the counts mapping of attendanceSummary always carries exactly
the four keys total, present, excused and absent (its accumulator starts
from the four-key literal, so an empty session yields all zeros); total
equals the number of attendance records of the session and equals
present + excused + absent; present counts exactly the records whose
response is present or null, so a null response is bucketed under
present. -/
theorem attendanceSummary_counts (store : Storage) (sessionId : String) :
    (getAttendanceSummary store sessionId).1.total
      = (store.attendanceRecords.filter (fun r => r.sessionId == sessionId)).length ∧
    (getAttendanceSummary store sessionId).1.total
      = (getAttendanceSummary store sessionId).1.present
        + (getAttendanceSummary store sessionId).1.excused
        + (getAttendanceSummary store sessionId).1.absent ∧
    (getAttendanceSummary store sessionId).1.present
      = ((store.attendanceRecords.filter (fun r => r.sessionId == sessionId)).filter
          (fun r => r.response == some AttendanceResponse.present
            || r.response == none)).length ∧
    (getAttendanceSummary store sessionId).1.excused
      = ((store.attendanceRecords.filter (fun r => r.sessionId == sessionId)).filter
          (fun r => r.response == some AttendanceResponse.excused)).length ∧
    (getAttendanceSummary store sessionId).1.absent
      = ((store.attendanceRecords.filter (fun r => r.sessionId == sessionId)).filter
          (fun r => r.response == some AttendanceResponse.absent)).length := by
  have ht := foldl_countsStep_total
    (store.attendanceRecords.filter (fun r => r.sessionId == sessionId)) ⟨0, 0, 0, 0⟩
  have hp := foldl_countsStep_present
    (store.attendanceRecords.filter (fun r => r.sessionId == sessionId)) ⟨0, 0, 0, 0⟩
  have he := foldl_countsStep_excused
    (store.attendanceRecords.filter (fun r => r.sessionId == sessionId)) ⟨0, 0, 0, 0⟩
  have ha := foldl_countsStep_absent
    (store.attendanceRecords.filter (fun r => r.sessionId == sessionId)) ⟨0, 0, 0, 0⟩
  have hsplit := length_split_responses
    (store.attendanceRecords.filter (fun r => r.sessionId == sessionId))
  simp only [getAttendanceSummary] at *
  refine ⟨by rw [ht]; omega, ?_, by rw [hp]; omega, by rw [he]; omega, by rw [ha]; omega⟩
  rw [ht, hp, he, ha]
  omega
